import Mathlib

/-!
Shallow embedding of the OAuth demo client (two variants: the plain
variant in src/server.js and the PKCE variant). Pure helpers are
translated as Lean functions; each HTTP handler is translated as a pure
function from the ambient configuration, the in-memory token store and
the provider responses to the handler result, the updated token store
and the list of outbound network requests it performed.
-/

set_option autoImplicit false

namespace OAuthClient

/-- Truthiness of a JS string-or-undefined value: `undefined` and the
empty string are falsy, every other string is truthy. Used to model
guards such as `!tokens.refreshToken`. -/
def jsFalsy : Option String → Bool
  | none => true
  | some s => s = ""

/-- Static configuration read from the environment (already validated at
startup by the zod schema). -/
structure Config where
  FAPI_URL : String
  CLIENT_ID : String
  CLIENT_SECRET : String
  PORT : String
  deriving Repr, DecidableEq

/-- The in-memory token store, `const tokens = {}` in both variants.
A field is `none` while the corresponding JS property is `undefined`. -/
structure Tokens where
  accessToken : Option String := none
  refreshToken : Option String := none
  idToken : Option String := none
  deriving Repr, DecidableEq

/-- A provider JSON body as the client reads it: the three token fields
it may pick out (absent in error bodies), plus the remaining fields kept
opaque as key-value pairs so that pass-through results can be compared
for exact equality. -/
structure ProviderJson where
  access_token : Option String := none
  refresh_token : Option String := none
  id_token : Option String := none
  rest : List (String × String) := []
  deriving Repr, DecidableEq

/-- An outbound network request made with `fetch`: URL, method, the
Authorization header when one is set, and the form-urlencoded body as
key-value pairs. -/
structure OutboundRequest where
  url : String
  method : String
  authorization : Option String := none
  body : List (String × String) := []
  deriving Repr, DecidableEq

/-- Serialization of a JS object literal by `qs.stringify`: keys whose
value is `undefined` are skipped. -/
def qsPairs : List (String × Option String) → List (String × String) :=
  List.filterMap fun kv => kv.2.map fun v => (kv.1, v)

/-! ## Crypto helper (PKCE variant)

`generateCodeChallenge` hashes the verifier with SHA-256 and encodes the
digest in base64, then rewrites `+` to `-`, `/` to `_` and removes `=`.
The SHA-256 and base64 primitives of node are embedded below; 32-bit
words are Nats kept below 2^32 by explicit reduction. -/

/-- UTF-8 encoding of one character, as byte values. -/
def utf8EncodeChar (c : Char) : List Nat :=
  let n := c.toNat
  if n < 0x80 then [n]
  else if n < 0x800 then
    [0xC0 ||| (n >>> 6), 0x80 ||| (n &&& 0x3F)]
  else if n < 0x10000 then
    [0xE0 ||| (n >>> 12), 0x80 ||| ((n >>> 6) &&& 0x3F), 0x80 ||| (n &&& 0x3F)]
  else
    [0xF0 ||| (n >>> 18), 0x80 ||| ((n >>> 12) &&& 0x3F),
     0x80 ||| ((n >>> 6) &&& 0x3F), 0x80 ||| (n &&& 0x3F)]

/-- UTF-8 bytes of a string, the byte stream node hashes and encodes. -/
def utf8Bytes (s : String) : List Nat :=
  s.toList.flatMap utf8EncodeChar

/-- Addition of 32-bit words. -/
def add32 (a b : Nat) : Nat := (a + b) % 2 ^ 32

/-- Right rotation of a 32-bit word. -/
def rotr32 (n x : Nat) : Nat := ((x >>> n) ||| (x <<< (32 - n))) % 2 ^ 32

/-- Bitwise complement of a 32-bit word. -/
def not32 (x : Nat) : Nat := x ^^^ 0xFFFFFFFF

/-- SHA-256 round constants 0 to 3. -/
def shaK0 : List Nat := [0x428a2f98, 0x71374491, 0xb5c0fbcf, 0xe9b5dba5]

/-- SHA-256 round constants 4 to 7. -/
def shaK1 : List Nat := [0x3956c25b, 0x59f111f1, 0x923f82a4, 0xab1c5ed5]

/-- SHA-256 round constants 8 to 11. -/
def shaK2 : List Nat := [0xd807aa98, 0x12835b01, 0x243185be, 0x550c7dc3]

/-- SHA-256 round constants 12 to 15. -/
def shaK3 : List Nat := [0x72be5d74, 0x80deb1fe, 0x9bdc06a7, 0xc19bf174]

/-- SHA-256 round constants 16 to 19. -/
def shaK4 : List Nat := [0xe49b69c1, 0xefbe4786, 0x0fc19dc6, 0x240ca1cc]

/-- SHA-256 round constants 20 to 23. -/
def shaK5 : List Nat := [0x2de92c6f, 0x4a7484aa, 0x5cb0a9dc, 0x76f988da]

/-- SHA-256 round constants 24 to 27. -/
def shaK6 : List Nat := [0x983e5152, 0xa831c66d, 0xb00327c8, 0xbf597fc7]

/-- SHA-256 round constants 28 to 31. -/
def shaK7 : List Nat := [0xc6e00bf3, 0xd5a79147, 0x06ca6351, 0x14292967]

/-- SHA-256 round constants 32 to 35. -/
def shaK8 : List Nat := [0x27b70a85, 0x2e1b2138, 0x4d2c6dfc, 0x53380d13]

/-- SHA-256 round constants 36 to 39. -/
def shaK9 : List Nat := [0x650a7354, 0x766a0abb, 0x81c2c92e, 0x92722c85]

/-- SHA-256 round constants 40 to 43. -/
def shaK10 : List Nat := [0xa2bfe8a1, 0xa81a664b, 0xc24b8b70, 0xc76c51a3]

/-- SHA-256 round constants 44 to 47. -/
def shaK11 : List Nat := [0xd192e819, 0xd6990624, 0xf40e3585, 0x106aa070]

/-- SHA-256 round constants 48 to 51. -/
def shaK12 : List Nat := [0x19a4c116, 0x1e376c08, 0x2748774c, 0x34b0bcb5]

/-- SHA-256 round constants 52 to 55. -/
def shaK13 : List Nat := [0x391c0cb3, 0x4ed8aa4a, 0x5b9cca4f, 0x682e6ff3]

/-- SHA-256 round constants 56 to 59. -/
def shaK14 : List Nat := [0x748f82ee, 0x78a5636f, 0x84c87814, 0x8cc70208]

/-- SHA-256 round constants 60 to 63. -/
def shaK15 : List Nat := [0x90befffa, 0xa4506ceb, 0xbef9a3f7, 0xc67178f2]

/-- The 64 SHA-256 round constants. -/
def shaK : List Nat :=
  shaK0 ++ shaK1 ++ shaK2 ++ shaK3 ++ shaK4 ++ shaK5 ++ shaK6 ++ shaK7 ++
    shaK8 ++ shaK9 ++ shaK10 ++ shaK11 ++ shaK12 ++ shaK13 ++ shaK14 ++ shaK15

/-- The eight working variables of SHA-256. -/
structure HashState where
  a : Nat
  b : Nat
  c : Nat
  d : Nat
  e : Nat
  f : Nat
  g : Nat
  h : Nat
  deriving Repr, DecidableEq

/-- Initial SHA-256 hash value. -/
def shaInit : HashState :=
  { a := 0x6a09e667, b := 0xbb67ae85, c := 0x3c6ef372, d := 0xa54ff53a,
    e := 0x510e527f, f := 0x9b05688c, g := 0x1f83d9ab, h := 0x5be0cd19 }

/-- Big-endian 8-byte encoding of the message bit length. -/
def toBytes8 (n : Nat) : List Nat :=
  [(n >>> 56) &&& 255, (n >>> 48) &&& 255, (n >>> 40) &&& 255, (n >>> 32) &&& 255,
   (n >>> 24) &&& 255, (n >>> 16) &&& 255, (n >>> 8) &&& 255, n &&& 255]

/-- Big-endian 4-byte encoding of a 32-bit word. -/
def toBytes4 (n : Nat) : List Nat :=
  [(n >>> 24) &&& 255, (n >>> 16) &&& 255, (n >>> 8) &&& 255, n &&& 255]

/-- SHA-256 padding: a 0x80 byte, zeros to 56 mod 64, then the bit length. -/
def padMessage (msg : List Nat) : List Nat :=
  msg ++ [0x80] ++ List.replicate ((55 + 64 - msg.length % 64) % 64) 0
      ++ toBytes8 (8 * msg.length)

/-- Split a byte list into 64-byte blocks, by fuel on the list length. -/
def chunks64Aux : Nat → List Nat → List (List Nat)
  | 0, _ => []
  | _ + 1, [] => []
  | fuel + 1, l => l.take 64 :: chunks64Aux fuel (l.drop 64)

/-- Split a byte list into 64-byte blocks. -/
def chunks64 (l : List Nat) : List (List Nat) := chunks64Aux l.length l

/-- Big-endian 32-bit word number `i` of a block of bytes. -/
def word32At (block : List Nat) (i : Nat) : Nat :=
  ((block.getD (4 * i) 0) <<< 24) ||| ((block.getD (4 * i + 1) 0) <<< 16) |||
    ((block.getD (4 * i + 2) 0) <<< 8) ||| block.getD (4 * i + 3) 0

/-- Extend the 16-word message schedule to 64 words. -/
def extendW : Nat → List Nat → List Nat
  | 0, w => w
  | n + 1, w =>
    let t := w.length
    let s0 := (rotr32 7 (w.getD (t - 15) 0)) ^^^ (rotr32 18 (w.getD (t - 15) 0)) ^^^
      ((w.getD (t - 15) 0) >>> 3)
    let s1 := (rotr32 17 (w.getD (t - 2) 0)) ^^^ (rotr32 19 (w.getD (t - 2) 0)) ^^^
      ((w.getD (t - 2) 0) >>> 10)
    extendW n (w ++ [(w.getD (t - 16) 0 + s0 + w.getD (t - 7) 0 + s1) % 2 ^ 32])

/-- Message schedule of one 64-byte block. -/
def msgSchedule (block : List Nat) : List Nat :=
  extendW 48 ((List.range 16).map (word32At block))

/-- One SHA-256 compression round, consuming one round constant and one
schedule word. -/
def compressRound (st : HashState) (kw : Nat × Nat) : HashState :=
  let S1 := (rotr32 6 st.e) ^^^ (rotr32 11 st.e) ^^^ (rotr32 25 st.e)
  let ch := (st.e &&& st.f) ^^^ ((not32 st.e) &&& st.g)
  let temp1 := (st.h + S1 + ch + kw.1 + kw.2) % 2 ^ 32
  let S0 := (rotr32 2 st.a) ^^^ (rotr32 13 st.a) ^^^ (rotr32 22 st.a)
  let maj := (st.a &&& st.b) ^^^ (st.a &&& st.c) ^^^ (st.b &&& st.c)
  let temp2 := (S0 + maj) % 2 ^ 32
  ⟨(temp1 + temp2) % 2 ^ 32, st.a, st.b, st.c, (st.d + temp1) % 2 ^ 32, st.e, st.f, st.g⟩

/-- Process one 64-byte block. -/
def compressBlock (st : HashState) (block : List Nat) : HashState :=
  let f := (shaK.zip (msgSchedule block)).foldl compressRound st
  ⟨add32 st.a f.a, add32 st.b f.b, add32 st.c f.c, add32 st.d f.d,
   add32 st.e f.e, add32 st.f f.f, add32 st.g f.g, add32 st.h f.h⟩

/-- SHA-256 digest of a byte list, as 32 bytes. -/
def sha256 (msg : List Nat) : List Nat :=
  let f := (chunks64 (padMessage msg)).foldl compressBlock shaInit
  toBytes4 f.a ++ toBytes4 f.b ++ toBytes4 f.c ++ toBytes4 f.d ++
    toBytes4 f.e ++ toBytes4 f.f ++ toBytes4 f.g ++ toBytes4 f.h

/-- The base64 alphabet. -/
def base64Chars : List Char :=
  "ABCDEFGHIJKLMNOPQRSTUVWXYZabcdefghijklmnopqrstuvwxyz0123456789+/".toList

/-- Character number `n` of the base64 alphabet. -/
def b64char (n : Nat) : Char := base64Chars.getD n 'A'

/-- Standard base64 encoding with `=` padding, as node produces with
`toString("base64")`. -/
def base64encode : List Nat → List Char
  | a :: b :: c :: rest =>
    let n := (a <<< 16) ||| (b <<< 8) ||| c
    b64char ((n >>> 18) &&& 63) :: b64char ((n >>> 12) &&& 63) ::
      b64char ((n >>> 6) &&& 63) :: b64char (n &&& 63) :: base64encode rest
  | [a, b] =>
    let n := (a <<< 16) ||| (b <<< 8)
    [b64char ((n >>> 18) &&& 63), b64char ((n >>> 12) &&& 63),
     b64char ((n >>> 6) &&& 63), '=']
  | [a] =>
    let n := a <<< 16
    [b64char ((n >>> 18) &&& 63), b64char ((n >>> 12) &&& 63), '=', '=']
  | [] => []

/-- The first replace of the source: `+` becomes `-`. -/
def plusMap (c : Char) : Char := if c = '+' then '-' else c

/-- The second replace of the source: `/` becomes `_`. -/
def slashMap (c : Char) : Char := if c = '/' then '_' else c

/-- The three chained replaces of the source applied to a base64 text:
`+` to `-`, then `/` to `_`, then every `=` removed. -/
def base64UrlOf (cs : List Char) : List Char :=
  ((cs.map plusMap).map slashMap).filter (fun c => c ≠ '=')

/-- Base64 text of a string of bytes, as `Buffer.from(s).toString("base64")`
produces for the UTF-8 bytes of `s`. -/
def base64OfString (s : String) : String :=
  String.mk (base64encode (utf8Bytes s))

namespace Pkce

/-- Translation of `generateCodeChallenge` of the PKCE variant: SHA-256
of the verifier, base64, then `+` to `-`, `/` to `_`, `=` removed. -/
def generateCodeChallenge (verifier : String) : String :=
  String.mk (base64UrlOf (base64encode (sha256 (utf8Bytes verifier))))

end Pkce

/-- Projection of a provider token response onto the three stored fields,
as the three consecutive assignments of a successful exchange perform. -/
def Tokens.fromResponse (j : ProviderJson) : Tokens :=
  ⟨j.access_token, j.refresh_token, j.id_token⟩

/-- Body of a page rendered by generateHtml: either the structured
error object of a failed precondition, a provider JSON passed through,
or the revocation result object. -/
inductive PageBody where
  | errorObj (error : String)
  | json (j : ProviderJson)
  | revocation (requestBody : List (String × String)) (resp : ProviderJson)
  deriving Repr, DecidableEq

/-- A page rendered by generateHtml with its arguments. -/
structure Page where
  title : String
  heading : String
  body : PageBody
  showButtons : Bool := true
  deriving Repr, DecidableEq

/-- Result of GET /callback: either the 400 rejection of a state
mismatch, or a rendered page. -/
inductive CallbackResult where
  | stateMismatch
  | page (p : Page)
  deriving Repr, DecidableEq

/-- HTTP status of a callback result: 400 for the mismatch rejection,
otherwise the default 200 of res.send. -/
def CallbackResult.httpStatus : CallbackResult → Nat
  | .stateMismatch => 400
  | .page _ => 200

namespace Server

/-- Authorization request parameters of the plain variant (the `params`
object of src/server.js). -/
def params (cfg : Config) (state : String) : List (String × String) :=
  [("response_type", "code"),
   ("client_id", cfg.CLIENT_ID),
   ("redirect_uri", "http://localhost:" ++ cfg.PORT ++ "/callback"),
   ("scope", "email profile"),
   ("state", state)]

/-- The token-endpoint request the plain callback sends; an undefined
`code` query value is skipped by qs.stringify. -/
def tokenRequest (cfg : Config) (code : Option String) : OutboundRequest :=
  { url := cfg.FAPI_URL ++ "/oauth/token", method := "POST",
    body := qsPairs
      [("client_id", some cfg.CLIENT_ID),
       ("client_secret", some cfg.CLIENT_SECRET),
       ("code", code),
       ("grant_type", some "authorization_code"),
       ("redirect_uri", some ("http://localhost:" ++ cfg.PORT ++ "/callback"))] }

/-- Translation of GET /callback of src/server.js: reject on state
mismatch, otherwise POST the exchange and assign the three token fields
from the parsed response body with no status check at all. -/
def callback (cfg : Config) (state : String) (tokens : Tokens)
    (code callbackState : Option String)
    (provider : OutboundRequest → Nat × ProviderJson) :
    CallbackResult × Tokens × List OutboundRequest :=
  if callbackState ≠ some state then
    (.stateMismatch, tokens, [])
  else
    let req := tokenRequest cfg code
    let response := (provider req).2
    (.page ⟨"OAuth Response", "OAuth Token Response", .json response, true⟩,
     { tokens with
        accessToken := response.access_token,
        refreshToken := response.refresh_token,
        idToken := response.id_token },
     [req])

end Server

namespace Pkce

/-- Authorization request parameters of the PKCE variant: the plain
parameters plus the code challenge derived from the stored verifier. -/
def params (cfg : Config) (state codeVerifier : String) : List (String × String) :=
  [("response_type", "code"),
   ("client_id", cfg.CLIENT_ID),
   ("redirect_uri", "http://localhost:" ++ cfg.PORT ++ "/callback"),
   ("scope", "email profile"),
   ("state", state),
   ("code_challenge", generateCodeChallenge codeVerifier),
   ("code_challenge_method", "S256")]

/-- The token-endpoint request the PKCE callback sends, with the stored
code verifier; an undefined `code` query value is skipped by
qs.stringify. -/
def tokenRequest (cfg : Config) (code : Option String) (codeVerifier : String) :
    OutboundRequest :=
  { url := cfg.FAPI_URL ++ "/oauth/token", method := "POST",
    body := qsPairs
      [("client_id", some cfg.CLIENT_ID),
       ("client_secret", some cfg.CLIENT_SECRET),
       ("code", code),
       ("code_verifier", some codeVerifier),
       ("grant_type", some "authorization_code"),
       ("redirect_uri", some ("http://localhost:" ++ cfg.PORT ++ "/callback"))] }

/-- Translation of GET /callback of the PKCE variant: reject on state
mismatch; on a non-200 provider status render the error body and leave
the token store alone; on 200 assign the three token fields. -/
def callback (cfg : Config) (state codeVerifier : String) (tokens : Tokens)
    (code callbackState : Option String)
    (provider : OutboundRequest → Nat × ProviderJson) :
    CallbackResult × Tokens × List OutboundRequest :=
  if callbackState ≠ some state then
    (.stateMismatch, tokens, [])
  else
    let req := tokenRequest cfg code codeVerifier
    let pr := provider req
    if pr.1 ≠ 200 then
      (.page ⟨"OAuth Error", "OAuth Token Error", .json pr.2, false⟩, tokens, [req])
    else
      (.page ⟨"OAuth Response", "OAuth Token Response", .json pr.2, true⟩,
       { tokens with
          accessToken := pr.2.access_token,
          refreshToken := pr.2.refresh_token,
          idToken := pr.2.id_token },
       [req])

end Pkce

/-- The token-endpoint request GET /refresh sends; identical in both
variants. -/
def refreshRequest (cfg : Config) (storedRefresh : String) : OutboundRequest :=
  { url := cfg.FAPI_URL ++ "/oauth/token", method := "POST",
    body := [("client_id", cfg.CLIENT_ID),
             ("client_secret", cfg.CLIENT_SECRET),
             ("refresh_token", storedRefresh),
             ("grant_type", "refresh_token"),
             ("redirect_uri", "http://localhost:" ++ cfg.PORT ++ "/callback")] }

/-- Translation of GET /refresh, identical in both variants: guard on a
truthy stored refresh token; otherwise POST the refresh and overwrite
accessToken and refreshToken from the parsed response body. -/
def refreshHandler (cfg : Config) (tokens : Tokens)
    (provider : OutboundRequest → ProviderJson) :
    Page × Tokens × List OutboundRequest :=
  if jsFalsy tokens.refreshToken then
    (⟨"Error", "Error: No Refresh Token Available",
      .errorObj "No refresh token available. Please authorize first.", false⟩,
     tokens, [])
  else
    let req := refreshRequest cfg (tokens.refreshToken.getD "")
    let response := provider req
    (⟨"Token Refreshed", "Token Refreshed", .json response, true⟩,
     { tokens with
        accessToken := response.access_token,
        refreshToken := response.refresh_token },
     [req])

/-- The userinfo request with its bearer credential; identical in both
variants. -/
def userinfoRequest (cfg : Config) (accessToken : String) : OutboundRequest :=
  { url := cfg.FAPI_URL ++ "/oauth/userinfo", method := "GET",
    authorization := some ("Bearer " ++ accessToken) }

/-- Translation of GET /userinfo, identical in both variants: guard on a
truthy stored access token; otherwise GET the profile claims and render
them unmodified. -/
def userinfoHandler (cfg : Config) (tokens : Tokens)
    (provider : OutboundRequest → ProviderJson) :
    Page × Tokens × List OutboundRequest :=
  if jsFalsy tokens.accessToken then
    (⟨"Error", "Error: No Access Token Available",
      .errorObj "No access token available. Please authorize first.", false⟩,
     tokens, [])
  else
    let req := userinfoRequest cfg (tokens.accessToken.getD "")
    (⟨"User Info", "User Information", .json (provider req), true⟩, tokens, [req])

namespace Pkce

/-- The basic client-credential value both introspectToken and
revokeToken compute: base64 of CLIENT_ID colon CLIENT_SECRET. -/
def basicAuth (cfg : Config) : String :=
  base64OfString (cfg.CLIENT_ID ++ ":" ++ cfg.CLIENT_SECRET)

/-- The introspection request of introspectToken: POST to the token_info
endpoint under basic client credentials, body holding only the token. -/
def introspectRequest (cfg : Config) (token : String) : OutboundRequest :=
  { url := cfg.FAPI_URL ++ "/oauth/token_info", method := "POST",
    authorization := some ("Basic " ++ basicAuth cfg),
    body := [("token", token)] }

/-- Translation of introspectToken of the PKCE variant: performs the
introspection request and returns the parsed body unmodified. -/
def introspectToken (cfg : Config) (token : String)
    (provider : OutboundRequest → ProviderJson) :
    ProviderJson × List OutboundRequest :=
  (provider (introspectRequest cfg token), [introspectRequest cfg token])

/-- Translation of GET /introspect/access. -/
def introspectAccess (cfg : Config) (tokens : Tokens)
    (provider : OutboundRequest → ProviderJson) :
    Page × Tokens × List OutboundRequest :=
  if jsFalsy tokens.accessToken then
    (⟨"Error", "Error: No Access Token Available",
      .errorObj "No access token available. Please authorize first.", false⟩,
     tokens, [])
  else
    let r := introspectToken cfg (tokens.accessToken.getD "") provider
    (⟨"Token Introspection", "Access Token Introspection", .json r.1, true⟩,
     tokens, r.2)

/-- Translation of GET /introspect/refresh. -/
def introspectRefresh (cfg : Config) (tokens : Tokens)
    (provider : OutboundRequest → ProviderJson) :
    Page × Tokens × List OutboundRequest :=
  if jsFalsy tokens.refreshToken then
    (⟨"Error", "Error: No Refresh Token Available",
      .errorObj "No refresh token available. Please authorize first.", false⟩,
     tokens, [])
  else
    let r := introspectToken cfg (tokens.refreshToken.getD "") provider
    (⟨"Token Introspection", "Refresh Token Introspection", .json r.1, true⟩,
     tokens, r.2)

/-- The revocation request of revokeToken: POST to the revoke endpoint
under basic client credentials, body holding token and token_type_hint. -/
def revokeRequest (cfg : Config) (token tokenTypeHint : String) : OutboundRequest :=
  { url := cfg.FAPI_URL ++ "/oauth/token/revoke", method := "POST",
    authorization := some ("Basic " ++ basicAuth cfg),
    body := [("token", token), ("token_type_hint", tokenTypeHint)] }

/-- Translation of revokeToken of the PKCE variant: performs the
revocation request and returns the request body together with the parsed
response. -/
def revokeToken (cfg : Config) (token tokenTypeHint : String)
    (provider : OutboundRequest → ProviderJson) :
    (List (String × String) × ProviderJson) × List OutboundRequest :=
  (([("token", token), ("token_type_hint", tokenTypeHint)],
    provider (revokeRequest cfg token tokenTypeHint)),
   [revokeRequest cfg token tokenTypeHint])

/-- Translation of GET /revoke/access: guard, revoke, render; the token
store is never written. -/
def revokeAccess (cfg : Config) (tokens : Tokens)
    (provider : OutboundRequest → ProviderJson) :
    Page × Tokens × List OutboundRequest :=
  if jsFalsy tokens.accessToken then
    (⟨"Error", "Error: No Access Token Available",
      .errorObj "No access token available. Please authorize first.", false⟩,
     tokens, [])
  else
    let r := revokeToken cfg (tokens.accessToken.getD "") "access_token" provider
    (⟨"Token Revoked", "Access Token Revoked", .revocation r.1.1 r.1.2, true⟩,
     tokens, r.2)

/-- Translation of GET /revoke/refresh: guard, revoke, render; the token
store is never written. -/
def revokeRefresh (cfg : Config) (tokens : Tokens)
    (provider : OutboundRequest → ProviderJson) :
    Page × Tokens × List OutboundRequest :=
  if jsFalsy tokens.refreshToken then
    (⟨"Error", "Error: No Refresh Token Available",
      .errorObj "No refresh token available. Please authorize first.", false⟩,
     tokens, [])
  else
    let r := revokeToken cfg (tokens.refreshToken.getD "") "refresh_token" provider
    (⟨"Token Revoked", "Refresh Token Revoked", .revocation r.1.1 r.1.2, true⟩,
     tokens, r.2)

end Pkce

/-- A concrete configuration used by the closed evaluation theorems. -/
def cfgEx : Config := ⟨"https://fapi.example", "client-id", "client-secret", "3000"⟩

/-- A fully populated token store used by the closed evaluation theorems. -/
def fullTokens : Tokens := ⟨some "A", some "R", some "I"⟩

/-- A provider error body with no token fields, used by the closed
evaluation theorems. -/
def errBody : ProviderJson := { rest := [("error", "invalid_grant")] }

/-- An empty token store used by the closed evaluation theorems. -/
def noTokens : Tokens := ⟨none, none, none⟩

/-- A successful provider token body used by the closed evaluation
theorems. -/
def okBody : ProviderJson :=
  { access_token := some "A", refresh_token := some "R", id_token := some "I" }

/-! ## Theorems about the claims -/

/-- Characters of the base64 alphabet are never the padding character. -/
theorem b64char_ne_pad (n : Nat) : b64char n ≠ '=' := by
  by_cases h : n < 64
  · exact (by decide : ∀ m, m < 64 → b64char m ≠ '=') n h
  · have hlen : base64Chars.length = 64 := rfl
    unfold b64char
    rw [List.getD_eq_default _ _ (by omega)]
    decide

/-- Alphabet characters stay distinct from the padding character after
the two URL-safe replaces. -/
theorem urlmapped_b64_ne (n : Nat) : slashMap (plusMap (b64char n)) ≠ '=' := by
  have h := b64char_ne_pad n
  unfold slashMap plusMap
  split_ifs <;> simp_all

/-- The padding character is untouched by the two URL-safe replaces. -/
theorem pad_maps_to_pad : slashMap (plusMap '=') = '=' := rfl

/-- Unfolding lemma for the URL-safe rewrite of an empty text. -/
theorem base64UrlOf_nil : base64UrlOf [] = [] := rfl

/-- Unfolding lemma for the URL-safe rewrite of one character. -/
theorem base64UrlOf_cons (c : Char) (cs : List Char) :
    base64UrlOf (c :: cs) =
      if slashMap (plusMap c) = '=' then base64UrlOf cs
      else slashMap (plusMap c) :: base64UrlOf cs := by
  unfold base64UrlOf
  by_cases h : slashMap (plusMap c) = '='
  · simp [h, List.filter_cons]
  · simp [h, List.filter_cons]

/-- Length of the URL-safe base64 text of a byte list whose length is
2 modulo 3: one padding character is produced and then removed. -/
theorem b64url_len : ∀ (n : Nat) (l : List Nat), l.length = 3 * n + 2 →
    (base64UrlOf (base64encode l)).length = 4 * n + 3 := by
  intro n
  induction n with
  | zero =>
    intro l h
    match l, h with
    | [a, b], _ =>
      simp [base64encode, base64UrlOf_cons, urlmapped_b64_ne, pad_maps_to_pad,
        base64UrlOf_nil]
  | succ m ih =>
    intro l h
    match l, h with
    | a :: b :: c :: rest, h =>
      have hrest : rest.length = 3 * m + 2 := by
        simp [List.length_cons] at h
        omega
      simp [base64encode, base64UrlOf_cons, urlmapped_b64_ne, ih rest hrest]
      omega

/-- A SHA-256 digest is 32 bytes for every message. -/
theorem sha256_length (msg : List Nat) : (sha256 msg).length = 32 := by
  unfold sha256
  simp [toBytes4]

/-- The derived code challenge always has 43 characters. -/
theorem generateCodeChallenge_length (v : String) :
    (Pkce.generateCodeChallenge v).length = 43 := by
  have h := b64url_len 10 (sha256 (utf8Bytes v)) (by rw [sha256_length])
  unfold Pkce.generateCodeChallenge
  simpa [String.length] using h

/-- The URL-safe rewrite never leaves a plus, slash or equals sign,
whatever its input text. -/
theorem base64UrlOf_banned (cs : List Char) :
    ∀ c ∈ base64UrlOf cs, c ≠ '+' ∧ c ≠ '/' ∧ c ≠ '=' := by
  intro c hc
  unfold base64UrlOf at hc
  have h1 := List.of_mem_filter hc
  have h2 := List.mem_of_mem_filter hc
  rcases List.mem_map.mp h2 with ⟨b, hb, rfl⟩
  rcases List.mem_map.mp hb with ⟨a, _, rfl⟩
  refine ⟨?_, ?_, by simpa using h1⟩
  · unfold slashMap plusMap
    split_ifs <;> simp_all
  · unfold slashMap plusMap
    split_ifs <;> simp_all

/-- No character of a derived code challenge is a plus, slash or equals
sign. -/
theorem generateCodeChallenge_chars (v : String) :
    ∀ c ∈ (Pkce.generateCodeChallenge v).toList, c ≠ '+' ∧ c ≠ '/' ∧ c ≠ '=' := by
  intro c hc
  exact base64UrlOf_banned _ c hc

/-- Claim C8: generateCodeChallenge is a deterministic function of its
input, and for every verifier its output is a fixed-length 43-character
base64url string containing no plus, slash or equals characters. -/
theorem c8_code_challenge_shape (v w : String) :
    (v = w → Pkce.generateCodeChallenge v = Pkce.generateCodeChallenge w) ∧
    (Pkce.generateCodeChallenge v).length = 43 ∧
    ∀ c ∈ (Pkce.generateCodeChallenge v).toList, c ≠ '+' ∧ c ≠ '/' ∧ c ≠ '=' :=
  ⟨fun h => h ▸ rfl, generateCodeChallenge_length v,
   generateCodeChallenge_chars v⟩

/-- Witness for C8 at the code verifier of RFC 7636: determinism and the
43-character bound hold there. -/
theorem c8_witness :
    Pkce.generateCodeChallenge "dBjftJeZ4CVP-mB92K27uhbUJU1p1r_wW1gFWFOEjXk" =
      Pkce.generateCodeChallenge "dBjftJeZ4CVP-mB92K27uhbUJU1p1r_wW1gFWFOEjXk" ∧
    (Pkce.generateCodeChallenge
      "dBjftJeZ4CVP-mB92K27uhbUJU1p1r_wW1gFWFOEjXk").length = 43 :=
  ⟨(c8_code_challenge_shape "dBjftJeZ4CVP-mB92K27uhbUJU1p1r_wW1gFWFOEjXk"
      "dBjftJeZ4CVP-mB92K27uhbUJU1p1r_wW1gFWFOEjXk").1 rfl,
   (c8_code_challenge_shape "dBjftJeZ4CVP-mB92K27uhbUJU1p1r_wW1gFWFOEjXk"
      "dBjftJeZ4CVP-mB92K27uhbUJU1p1r_wW1gFWFOEjXk").2.1⟩

/-- Claim C4: a callback whose returned state value differs from the
stored state, compared as plain strings, is rejected with HTTP 400, no
outbound request is made, and the token store is unchanged, in both
variants. -/
theorem c4_state_mismatch_rejected (cfg : Config) (st cv : String)
    (tokens : Tokens) (code callbackState : Option String)
    (provider : OutboundRequest → Nat × ProviderJson)
    (h : callbackState ≠ some st) :
    Server.callback cfg st tokens code callbackState provider =
      (.stateMismatch, tokens, []) ∧
    Pkce.callback cfg st cv tokens code callbackState provider =
      (.stateMismatch, tokens, []) ∧
    CallbackResult.httpStatus .stateMismatch = 400 := by
  refine ⟨?_, ?_, rfl⟩ <;> simp [Server.callback, Pkce.callback, h]

/-- Witness for C4: a callback carrying state "wrong" against stored
state "abc123" is rejected in both variants without touching the store. -/
theorem c4_witness :
    Server.callback cfgEx "abc123" fullTokens (some "xyz") (some "wrong")
      (fun _ => (200, okBody)) = (.stateMismatch, fullTokens, []) ∧
    Pkce.callback cfgEx "abc123" "v" fullTokens (some "xyz") (some "wrong")
      (fun _ => (200, okBody)) = (.stateMismatch, fullTokens, []) ∧
    CallbackResult.httpStatus .stateMismatch = 400 :=
  c4_state_mismatch_rejected cfgEx "abc123" "v" fullTokens (some "xyz")
    (some "wrong") (fun _ => (200, okBody)) (by decide)

/-- Claim C5: with matching state and a success response all three token
fields are set together from that single response, and no execution of
either callback updates a strict subset of the three fields. -/
theorem c5_success_sets_all_three (cfg : Config) (st cv : String)
    (tokens : Tokens) (code callbackState : Option String)
    (provider : OutboundRequest → Nat × ProviderJson) :
    (callbackState = some st →
      (provider (Pkce.tokenRequest cfg code cv)).1 = 200 →
      (Pkce.callback cfg st cv tokens code callbackState provider).2.1 =
        Tokens.fromResponse (provider (Pkce.tokenRequest cfg code cv)).2 ∧
      (Server.callback cfg st tokens code callbackState provider).2.1 =
        Tokens.fromResponse (provider (Server.tokenRequest cfg code)).2) ∧
    ((Pkce.callback cfg st cv tokens code callbackState provider).2.1 = tokens ∨
      (Pkce.callback cfg st cv tokens code callbackState provider).2.1 =
        Tokens.fromResponse (provider (Pkce.tokenRequest cfg code cv)).2) ∧
    ((Server.callback cfg st tokens code callbackState provider).2.1 = tokens ∨
      (Server.callback cfg st tokens code callbackState provider).2.1 =
        Tokens.fromResponse (provider (Server.tokenRequest cfg code)).2) := by
  refine ⟨?_, ?_, ?_⟩
  · intro h1 h2
    subst h1
    exact ⟨by simp [Pkce.callback, h2, Tokens.fromResponse],
           by simp [Server.callback, Tokens.fromResponse]⟩
  · by_cases hm : callbackState = some st
    · subst hm
      by_cases hs : (provider (Pkce.tokenRequest cfg code cv)).1 = 200
      · exact Or.inr (by simp [Pkce.callback, hs, Tokens.fromResponse])
      · exact Or.inl (by simp [Pkce.callback, hs])
    · exact Or.inl (by simp [Pkce.callback, hm])
  · by_cases hm : callbackState = some st
    · subst hm
      exact Or.inr (by simp [Server.callback, Tokens.fromResponse])
    · exact Or.inl (by simp [Server.callback, hm])

/-- Witness for C5: the example scenario of the spec, stored state
"abc123", callback with the same state and a full token body, populates
all three fields in both variants. -/
theorem c5_witness :
    (Pkce.callback cfgEx "abc123" "v" noTokens (some "xyz") (some "abc123")
      (fun _ => (200, okBody))).2.1 = Tokens.fromResponse okBody ∧
    (Server.callback cfgEx "abc123" noTokens (some "xyz") (some "abc123")
      (fun _ => (200, okBody))).2.1 = Tokens.fromResponse okBody :=
  (c5_success_sets_all_three cfgEx "abc123" "v" noTokens (some "xyz")
    (some "abc123") (fun _ => (200, okBody))).1 rfl rfl

/-- Claim C6: each lifecycle operation invoked while the token it
requires is absent returns the structured error page, performs no
outbound request and leaves the token store unchanged. -/
theorem c6_missing_token_short_circuits (cfg : Config) (tokens : Tokens)
    (provider : OutboundRequest → ProviderJson) :
    (jsFalsy tokens.refreshToken = true →
      refreshHandler cfg tokens provider =
        (⟨"Error", "Error: No Refresh Token Available",
          .errorObj "No refresh token available. Please authorize first.", false⟩,
         tokens, []) ∧
      Pkce.introspectRefresh cfg tokens provider =
        (⟨"Error", "Error: No Refresh Token Available",
          .errorObj "No refresh token available. Please authorize first.", false⟩,
         tokens, []) ∧
      Pkce.revokeRefresh cfg tokens provider =
        (⟨"Error", "Error: No Refresh Token Available",
          .errorObj "No refresh token available. Please authorize first.", false⟩,
         tokens, [])) ∧
    (jsFalsy tokens.accessToken = true →
      userinfoHandler cfg tokens provider =
        (⟨"Error", "Error: No Access Token Available",
          .errorObj "No access token available. Please authorize first.", false⟩,
         tokens, []) ∧
      Pkce.introspectAccess cfg tokens provider =
        (⟨"Error", "Error: No Access Token Available",
          .errorObj "No access token available. Please authorize first.", false⟩,
         tokens, []) ∧
      Pkce.revokeAccess cfg tokens provider =
        (⟨"Error", "Error: No Access Token Available",
          .errorObj "No access token available. Please authorize first.", false⟩,
         tokens, [])) := by
  constructor <;> intro h <;>
    refine ⟨?_, ?_, ?_⟩ <;>
    simp [refreshHandler, userinfoHandler, Pkce.introspectRefresh,
      Pkce.revokeRefresh, Pkce.introspectAccess, Pkce.revokeAccess, h]

/-- Witness for C6: with an empty token store all six lifecycle
operations short-circuit to their error page with no outbound request. -/
theorem c6_witness :
    refreshHandler cfgEx noTokens (fun _ => errBody) =
      (⟨"Error", "Error: No Refresh Token Available",
        .errorObj "No refresh token available. Please authorize first.", false⟩,
       noTokens, []) ∧
    Pkce.introspectRefresh cfgEx noTokens (fun _ => errBody) =
      (⟨"Error", "Error: No Refresh Token Available",
        .errorObj "No refresh token available. Please authorize first.", false⟩,
       noTokens, []) ∧
    Pkce.revokeRefresh cfgEx noTokens (fun _ => errBody) =
      (⟨"Error", "Error: No Refresh Token Available",
        .errorObj "No refresh token available. Please authorize first.", false⟩,
       noTokens, []) ∧
    userinfoHandler cfgEx noTokens (fun _ => errBody) =
      (⟨"Error", "Error: No Access Token Available",
        .errorObj "No access token available. Please authorize first.", false⟩,
       noTokens, []) ∧
    Pkce.introspectAccess cfgEx noTokens (fun _ => errBody) =
      (⟨"Error", "Error: No Access Token Available",
        .errorObj "No access token available. Please authorize first.", false⟩,
       noTokens, []) ∧
    Pkce.revokeAccess cfgEx noTokens (fun _ => errBody) =
      (⟨"Error", "Error: No Access Token Available",
        .errorObj "No access token available. Please authorize first.", false⟩,
       noTokens, []) := by
  have h := c6_missing_token_short_circuits cfgEx noTokens (fun _ => errBody)
  have h1 := h.1 (by decide)
  have h2 := h.2 (by decide)
  exact ⟨h1.1, h1.2.1, h1.2.2, h2.1, h2.2.1, h2.2.2⟩

/-- Claim C7: the authorization parameters always contain the client id,
the redirect URI and the state of the session; the PKCE variant also
carries code_challenge equal to generateCodeChallenge of the stored
verifier, with method S256. -/
theorem c7_authorization_params (cfg : Config) (st cv : String) :
    ("client_id", cfg.CLIENT_ID) ∈ Server.params cfg st ∧
    ("redirect_uri", "http://localhost:" ++ cfg.PORT ++ "/callback") ∈
      Server.params cfg st ∧
    ("state", st) ∈ Server.params cfg st ∧
    ("client_id", cfg.CLIENT_ID) ∈ Pkce.params cfg st cv ∧
    ("redirect_uri", "http://localhost:" ++ cfg.PORT ++ "/callback") ∈
      Pkce.params cfg st cv ∧
    ("state", st) ∈ Pkce.params cfg st cv ∧
    ("code_challenge", Pkce.generateCodeChallenge cv) ∈ Pkce.params cfg st cv ∧
    ("code_challenge_method", "S256") ∈ Pkce.params cfg st cv := by
  refine ⟨?_, ?_, ?_, ?_, ?_, ?_, ?_, ?_⟩ <;> simp [Server.params, Pkce.params]

/-- Claim C9: revocation leaves the token store exactly as it was, for
both token kinds, on the short-circuit and the revocation path alike. -/
theorem c9_revoke_leaves_tokens (cfg : Config) (tokens : Tokens)
    (provider : OutboundRequest → ProviderJson) :
    (Pkce.revokeAccess cfg tokens provider).2.1 = tokens ∧
    (Pkce.revokeRefresh cfg tokens provider).2.1 = tokens := by
  refine ⟨?_, ?_⟩
  · unfold Pkce.revokeAccess
    split <;> rfl
  · unfold Pkce.revokeRefresh
    split <;> rfl

/-- Claim C10: refresh never modifies idToken: on the short-circuit and
on any provider response the stored idToken is returned unchanged. -/
theorem c10_refresh_preserves_idToken (cfg : Config) (tokens : Tokens)
    (provider : OutboundRequest → ProviderJson) :
    (refreshHandler cfg tokens provider).2.1.idToken = tokens.idToken := by
  unfold refreshHandler
  split <;> rfl

/-- Counterexample to claim C1 as stated: in the plain variant the
provider answers the exchange with status 400 and an error body, yet the
token store is mutated, the previously stored tokens being cleared. -/
theorem c1_counterexample :
    (Server.callback cfgEx "abc123" fullTokens (some "xyz") (some "abc123")
      (fun _ => (400, errBody))).2.1 = noTokens ∧
    (Server.callback cfgEx "abc123" fullTokens (some "xyz") (some "abc123")
      (fun _ => (400, errBody))).2.1 ≠ fullTokens := by
  constructor <;> decide

/-- Claim C1 as amended: in the PKCE variant a non-success exchange
surfaces the provider error body and leaves the token store unchanged;
in the plain variant the parsed body overwrites the three token fields
with no status check, even on a failed exchange. -/
theorem c1_failed_exchange (cfg : Config) (st cv : String)
    (tokens : Tokens) (code : Option String)
    (provider : OutboundRequest → Nat × ProviderJson)
    (hfail : (provider (Pkce.tokenRequest cfg code cv)).1 ≠ 200) :
    Pkce.callback cfg st cv tokens code (some st) provider =
      (.page ⟨"OAuth Error", "OAuth Token Error",
        .json (provider (Pkce.tokenRequest cfg code cv)).2, false⟩,
       tokens, [Pkce.tokenRequest cfg code cv]) ∧
    (Server.callback cfg st tokens code (some st) provider).2.1 =
      Tokens.fromResponse (provider (Server.tokenRequest cfg code)).2 := by
  constructor
  · simp [Pkce.callback, hfail]
  · simp [Server.callback, Tokens.fromResponse]

/-- Witness for the amended C1: a 400 provider response at a matching
callback leaves the PKCE token store unchanged and surfaces the error
body, while the plain variant overwrites the store from that body. -/
theorem c1_witness :
    Pkce.callback cfgEx "abc123" "v" fullTokens (some "xyz") (some "abc123")
      (fun _ => (400, errBody)) =
      (.page ⟨"OAuth Error", "OAuth Token Error", .json errBody, false⟩,
       fullTokens, [Pkce.tokenRequest cfgEx (some "xyz") "v"]) ∧
    (Server.callback cfgEx "abc123" fullTokens (some "xyz") (some "abc123")
      (fun _ => (400, errBody))).2.1 = Tokens.fromResponse errBody :=
  c1_failed_exchange cfgEx "abc123" "v" fullTokens (some "xyz")
    (fun _ => (400, errBody)) (by decide)

/-- Counterexample to claim C2 as stated: a refresh response that omits
refresh_token does not leave the stored value in place, it clears it. -/
theorem c2_counterexample :
    fullTokens.refreshToken = some "R" ∧
    (refreshHandler cfgEx fullTokens
      (fun _ => { access_token := some "A2" })).2.1.refreshToken = none := by
  constructor <;> decide

/-- Claim C2 as amended: on a refresh with a stored token present, the
accessToken and refreshToken fields are both overwritten from the
provider response unconditionally, so an absent refresh_token clears the
stored one rather than leaving it in place. -/
theorem c2_refresh_overwrites (cfg : Config) (tokens : Tokens)
    (provider : OutboundRequest → ProviderJson)
    (h : jsFalsy tokens.refreshToken = false) :
    (refreshHandler cfg tokens provider).2.1.accessToken =
      (provider (refreshRequest cfg (tokens.refreshToken.getD ""))).access_token ∧
    (refreshHandler cfg tokens provider).2.1.refreshToken =
      (provider (refreshRequest cfg (tokens.refreshToken.getD ""))).refresh_token := by
  constructor <;> simp [refreshHandler, h]

/-- Witness for the amended C2: a stored refresh token "R" and a response
carrying only a new access token leave the store with that access token
and a cleared refresh token. -/
theorem c2_witness :
    (refreshHandler cfgEx fullTokens
      (fun _ => { access_token := some "A2" })).2.1.accessToken = some "A2" ∧
    (refreshHandler cfgEx fullTokens
      (fun _ => { access_token := some "A2" })).2.1.refreshToken = none :=
  c2_refresh_overwrites cfgEx fullTokens
    (fun _ => { access_token := some "A2" }) (by decide)

/-- Counterexample to claim C3 as stated: the introspection request of
the PKCE variant carries only the token, no token_type_hint at all. -/
theorem c3_counterexample :
    (Pkce.introspectAccess cfgEx fullTokens (fun _ => errBody)).2.2 =
      [Pkce.introspectRequest cfgEx "A"] ∧
    (Pkce.introspectRequest cfgEx "A").body = [("token", "A")] ∧
    ((Pkce.introspectRequest cfgEx "A").body.all
      fun kv => kv.1 != "token_type_hint") = true := by
  refine ⟨?_, ?_, ?_⟩ <;> decide

/-- Claim C3 as amended: each introspection invoked with its token
present sends exactly one request to the token_info endpoint under basic
client credentials whose body carries only that token, with no
token_type_hint, and returns the provider payload unmodified. -/
theorem c3_introspection_request (cfg : Config) (tokens : Tokens)
    (provider : OutboundRequest → ProviderJson) :
    (jsFalsy tokens.accessToken = false →
      Pkce.introspectAccess cfg tokens provider =
        (⟨"Token Introspection", "Access Token Introspection",
          .json (provider (Pkce.introspectRequest cfg (tokens.accessToken.getD ""))),
          true⟩,
         tokens, [Pkce.introspectRequest cfg (tokens.accessToken.getD "")])) ∧
    (jsFalsy tokens.refreshToken = false →
      Pkce.introspectRefresh cfg tokens provider =
        (⟨"Token Introspection", "Refresh Token Introspection",
          .json (provider (Pkce.introspectRequest cfg (tokens.refreshToken.getD ""))),
          true⟩,
         tokens, [Pkce.introspectRequest cfg (tokens.refreshToken.getD "")])) ∧
    (∀ t : String, (Pkce.introspectRequest cfg t).authorization =
        some ("Basic " ++ Pkce.basicAuth cfg) ∧
      (Pkce.introspectRequest cfg t).body = [("token", t)]) := by
  refine ⟨fun ha => ?_, fun hr => ?_, fun t => ⟨rfl, rfl⟩⟩
  · simp [Pkce.introspectAccess, Pkce.introspectToken, ha]
  · simp [Pkce.introspectRefresh, Pkce.introspectToken, hr]

/-- Witness for the amended C3, at sessions holding only the selected
token: each introspection operation sends the single expected request
and passes the provider body through. -/
theorem c3_witness :
    Pkce.introspectAccess cfgEx ⟨some "A", none, none⟩ (fun _ => errBody) =
      (⟨"Token Introspection", "Access Token Introspection", .json errBody, true⟩,
       ⟨some "A", none, none⟩, [Pkce.introspectRequest cfgEx "A"]) ∧
    Pkce.introspectRefresh cfgEx ⟨none, some "R", none⟩ (fun _ => errBody) =
      (⟨"Token Introspection", "Refresh Token Introspection", .json errBody, true⟩,
       ⟨none, some "R", none⟩, [Pkce.introspectRequest cfgEx "R"]) :=
  ⟨(c3_introspection_request cfgEx ⟨some "A", none, none⟩
      (fun _ => errBody)).1 (by decide),
   (c3_introspection_request cfgEx ⟨none, some "R", none⟩
      (fun _ => errBody)).2.1 (by decide)⟩

end OAuthClient
